import Mathlib

/-!
Verification of the Sparkplug B edge-node session engine
(`send_thinkfan_sparkplug.py`, V5) against its specification.

The Python program is shallowly embedded: the module-level globals
(`connected`, `seq`, `first`, `previous_metrics`) become an explicit
state record threaded through the functions, Python dicts become
association lists that keep insertion order (Python 3.7+ dict
semantics), and the protobuf `Payload` message becomes a Lean
structure (serialization by the generated protobuf code is an external
collaborator and is modelled as the identity on this structure).
-/

namespace Sparkplug

/-- Sparkplug B data type codes, matching `sparkplug_b.proto`
(source lines 61-63). -/
def INT8 : Nat := 1
def INT16 : Nat := 2
def INT32 : Nat := 3
def INT64 : Nat := 4
def UINT8 : Nat := 5
def UINT16 : Nat := 6
def UINT32 : Nat := 7
def UINT64 : Nat := 8
def FLOAT : Nat := 9
def DOUBLE : Nat := 10
def BOOLEAN : Nat := 11
def STRING : Nat := 12
def DATETIME : Nat := 13

/-- A Python runtime value as it appears in a metric tuple.  Python
floats are modelled as rationals (IEEE doubles are a subset of ℚ). -/
inductive PyValue where
  | int (n : Int)
  | float (q : Rat)
  | bool (b : Bool)
  | str (s : String)
deriving DecidableEq, Repr

/-- Truncation of a rational toward zero, the semantics of Python
`int()` applied to a float. -/
def ratTrunc (q : Rat) : Int := q.num.tdiv q.den

/-- Python `int(value)`.  `none` models a raised `ValueError`
(non-numeric string). -/
def pyIntOf : PyValue → Option Int
  | .int n => some n
  | .bool b => some (if b then 1 else 0)
  | .float q => some (ratTrunc q)
  | .str s => s.toInt?

/-- Python `float(value)`.  String parsing is modelled as failure: the
program never routes a string value into a float-typed wire field. -/
def pyFloatOf : PyValue → Option Rat
  | .int n => some n
  | .bool b => some (if b then 1 else 0)
  | .float q => some q
  | .str _ => none

/-- Python `str(value)` (total).  The exact rendering of non-string
values is irrelevant to the program, which only applies `str` to
string-typed metric values. -/
def pyStrOf : PyValue → String
  | .str s => s
  | .bool b => if b then "True" else "False"
  | .int n => toString n
  | .float q => toString q

/-- Python `bool(value)` (total): truthiness. -/
def pyBoolOf : PyValue → Bool
  | .bool b => b
  | .int n => n != 0
  | .float q => q != 0
  | .str s => s != ""

/-- A metric tuple `(name, datatype, value)` as stored in the Python
metric dicts. -/
abbrev MetricEntry := String × Nat × PyValue

/-- A Python metric dict `{key: (name, datatype, value)}`: an
association list keeping insertion order, keys unique in practice. -/
abbrev Snapshot := List (String × MetricEntry)

/-- The static alias table `alias_map` (source lines 73-88). -/
def aliasList : List (String × Nat) :=
  [("cpu_percent", 0), ("mem_used_mb", 1), ("mem_total_mb", 2),
   ("disk_used_gb", 3), ("disk_total_gb", 4), ("fan_speed", 5),
   ("cpu_temp", 6), ("bytes_sent", 7), ("bytes_recv", 8),
   ("timestamp", 9), ("online", 10), ("node", 11),
   ("battery_percent", 12), ("device", 13)]

/-- `alias_map.get(name, 255)` (source line 103). -/
def aliasOf (name : String) : Nat := (aliasList.lookup name).getD 255

/-- One embedded metric of a protobuf `Payload` message: each wire
value field is `Option`-valued, `none` meaning the field is unset. -/
structure WireMetric where
  name : String
  metricAlias : Nat
  timestamp : Int
  datatype : Nat
  intValue : Option Int := none
  longValue : Option Int := none
  floatValue : Option Rat := none
  doubleValue : Option Rat := none
  booleanValue : Option Bool := none
  stringValue : Option String := none
deriving DecidableEq, Repr

/-- A protobuf `Payload` message as the program populates it:
`uuid = none` models the field left unset (non-birth payloads). -/
structure Payload where
  timestamp : Int
  seq : Nat
  uuid : Option String
  metrics : List WireMetric
deriving DecidableEq, Repr

/-- The loop body of `build_payload` (source lines 101-118) for one
metric: add a metric, set alias/name/timestamp/datatype, then populate
exactly the wire field selected by the `if/elif` chain on `datatype`.
A datatype matching no branch (notably `DATETIME`) populates no value
field.  `none` models a conversion raising. -/
def encodeMetric (name : String) (datatype : Nat) (value : PyValue)
    (ts : Int) : Option WireMetric :=
  let base : WireMetric :=
    { name := name, metricAlias := aliasOf name, timestamp := ts,
      datatype := datatype }
  if datatype ∈ [INT8, INT16, INT32, UINT8, UINT16, UINT32] then
    (pyIntOf value).map (fun n => { base with intValue := some n })
  else if datatype ∈ [INT64, UINT64] then
    (pyIntOf value).map (fun n => { base with longValue := some n })
  else if datatype = FLOAT then
    (pyFloatOf value).map (fun q => { base with floatValue := some q })
  else if datatype = DOUBLE then
    (pyFloatOf value).map (fun q => { base with doubleValue := some q })
  else if datatype = STRING then
    some { base with stringValue := some (pyStrOf value) }
  else if datatype = BOOLEAN then
    some { base with booleanValue := some (pyBoolOf value) }
  else
    some base

/-- `for _, (name, datatype, value) in metrics.items(): ...`
(source line 101): encode each dict value in insertion order, the dict
key itself being ignored. -/
def encodeMetrics (metrics : Snapshot) (ts : Int) :
    Option (List WireMetric) :=
  match metrics with
  | [] => some []
  | (_, (n, d, v)) :: rest =>
    match encodeMetric n d v ts, encodeMetrics rest ts with
    | some m, some ms => some (m :: ms)
    | _, _ => none

/-- The module-level mutable globals of the script
(source lines 68-71). -/
structure GState where
  connected : Bool
  seq : Nat
  first : Bool
  previousMetrics : Snapshot
deriving DecidableEq, Repr

/-- `build_payload` (source lines 93-122) with the global state made
explicit.  The global `seq` is stamped into the payload and then
incremented modulo 256 by the function itself; `uuid` (a fresh random
identifier in the source) is passed in as a parameter and attached
only when `is_birth` is true.  The wall-clock timestamp is likewise a
parameter. -/
def build_payload (st : GState) (metrics : Snapshot) (is_birth : Bool)
    (now : Int) (u : String) : GState × Option Payload :=
  ({ st with seq := (st.seq + 1) % 256 },
   (encodeMetrics metrics now).map (fun ms =>
     { timestamp := now, seq := st.seq,
       uuid := if is_birth then some u else none, metrics := ms }))

/-- `previous_metrics.get(k, (None, None, None))[2]` (source line 160):
the stored value of key `k`, `none` when the key is absent (the Python
sentinel component `None`, which no real metric value ever equals). -/
def valAt (s : Snapshot) (k : String) : Option PyValue :=
  (s.lookup k).map (fun e => e.2.2)

/-- The delta comprehension of `read_metrics` (source lines 159-160):
keep the entries of `cur` whose value differs from the stored value
(or whose key is absent) in `prev`. -/
def delta (prev cur : Snapshot) : Snapshot :=
  cur.filter (fun kv => decide (valAt prev kv.1 ≠ some kv.2.2.2))

/-- The state-and-diff tail of `read_metrics` (source lines 156-162):
the fresh snapshot (queried from psutil, here a parameter) replaces
`previous_metrics` unconditionally; the first call of a session
(empty `previous_metrics`) returns the snapshot in full, later calls
return the delta. -/
def read_metrics (st : GState) (snap : Snapshot) : GState × Snapshot :=
  if st.previousMetrics = [] then
    ({ st with previousMetrics := snap }, snap)
  else
    ({ st with previousMetrics := snap }, delta st.previousMetrics snap)

/-- The metric-selection part of one main-loop iteration (source lines
246-256): skip the tick when the returned set is empty; otherwise, on
the first tick since birth, substitute the full `previous_metrics`
(just refreshed to the new snapshot) and clear the flag. -/
def selectMetrics (st : GState) (snap : Snapshot) :
    GState × Option Snapshot :=
  let p := read_metrics st snap
  if p.2 = [] then (p.1, none)
  else if p.1.first then ({ p.1 with first := false }, some p.1.previousMetrics)
  else (p.1, some p.2)

/-- One full main-loop iteration (source lines 245-261): select the
outgoing metric set, and when one exists publish
`build_payload(metrics)` (no birth flag, hence no session uuid) as a
DDATA message.  The returned `Option Payload` is the published
message, `none` when the tick is skipped. -/
def loopIter (st : GState) (snap : Snapshot) (now : Int) :
    GState × Option Payload :=
  match selectMetrics st snap with
  | (st₁, none) => (st₁, none)
  | (st₁, some ms) => build_payload st₁ ms false now ""

/-- The NBIRTH metric dict (source lines 178-181). -/
def nodeMetrics (nodeId : String) : Snapshot :=
  [("online", ("online", BOOLEAN, .bool true)),
   ("node", ("node", STRING, .str nodeId))]

/-- The DBIRTH metric dict (source lines 187-201). -/
def deviceMetrics (deviceId : String) : Snapshot :=
  [("cpu_percent", ("cpu_percent", DOUBLE, .float 0)),
   ("mem_used_mb", ("mem_used_mb", INT64, .int 0)),
   ("mem_total_mb", ("mem_total_mb", INT64, .int 0)),
   ("disk_used_gb", ("disk_used_gb", INT64, .int 0)),
   ("disk_total_gb", ("disk_total_gb", INT64, .int 0)),
   ("fan_speed", ("fan_speed", INT64, .int 0)),
   ("cpu_temp", ("cpu_temp", DOUBLE, .float 0)),
   ("bytes_sent", ("bytes_sent", UINT64, .int 0)),
   ("bytes_recv", ("bytes_recv", UINT64, .int 0)),
   ("timestamp", ("timestamp", STRING, .str "")),
   ("battery_percent", ("battery_percent", DOUBLE, .float 0)),
   ("online", ("online", BOOLEAN, .bool true)),
   ("device", ("device", STRING, .str deviceId))]

/-- `on_connect` (source lines 167-208) with state explicit.  It marks
`first = True` and clears `previous_metrics` before the `rc` check;
on `rc == 0` it sets `connected`, builds and publishes the NBIRTH
payload and then the DBIRTH payload (both with `is_birth=True`, each
with a fresh uuid, here parameters `u1`, `u2`).  Note that although
the source declares `global ... seq`, it never assigns `seq`.  The two
`Option Payload` components are the published NBIRTH and DBIRTH. -/
def on_connect (st : GState) (rc : Nat) (nodeId deviceId : String)
    (now : Int) (u1 u2 : String) :
    GState × Option Payload × Option Payload :=
  let st := { st with first := true, previousMetrics := [] }
  if rc = 0 then
    let st := { st with connected := true }
    let p₁ := build_payload st (nodeMetrics nodeId) true now u1
    let p₂ := build_payload p₁.1 (deviceMetrics deviceId) true now u2
    (p₂.1, p₁.2, p₂.2)
  else
    (st, none, none)

/-- The stored Command Flag file state: `none` when the file does not
exist, `some s` its contents. -/
abbrev FlagFile := Option String

/-- The read half of the toggle in `on_dcmd` (source line 219):
`os.path.isfile(COMMAND_FILE) and
open(COMMAND_FILE).read().strip().upper() == "TRUE"`. -/
def flagTrue : FlagFile → Bool
  | none => false
  | some s => s.trim.toUpper == "TRUE"

/-- The body of the metric loop of `on_dcmd` (source lines 217-222):
if the metric is named `boolean_command`, read the current flag,
invert it and write `"TRUE"`/`"FALSE"` back; otherwise leave the
file untouched. -/
def dcmdStep (f : FlagFile) (m : WireMetric) : FlagFile :=
  if m.name == "boolean_command" then
    some (if !flagTrue f then "TRUE" else "FALSE")
  else f

/-- `on_dcmd` (source lines 213-223) acting on the Command Flag file:
iterate `dcmdStep` over the metrics of the (already protobuf-decoded)
payload.  The carried value of a `boolean_command` metric is never
read. -/
def on_dcmd (p : Payload) (file : FlagFile) : FlagFile :=
  p.metrics.foldl dcmdStep file

/-! ### Thread-interleaving model for the connection phase

`client.loop_start()` (source line 236) runs the paho network loop in
its own thread; `on_connect` and its publishes execute there.  The
main thread blocks on `while not connected` (source lines 239-240) and
then enters the DDATA loop.  The observable events are modelled below;
a system trace is any merge of the two threads' event sequences in
which no DDATA event precedes the `connected = True` assignment (the
only synchronization the source has). -/

/-- Observable events of the connection phase: the network thread's
`connected = True` (line 173), NBIRTH publish (line 183), DBIRTH
publish (line 203) and completion of the 5-second settling sleep
(line 206), and a DDATA publish by the main loop (line 259). -/
inductive Ev where
  | setConnected
  | nbirth
  | dbirth
  | settleDone
  | ddata
deriving DecidableEq, Repr

/-- The network thread's event sequence for one successful
`on_connect` invocation, in source order. -/
def netThread : List Ev := [.setConnected, .nbirth, .dbirth, .settleDone]

/-- `merges xs ys zs`: `zs` is an interleaving of `xs` and `ys`, each
thread's own order preserved. -/
def merges : List Ev → List Ev → List Ev → Bool
  | xs, ys, [] => xs.isEmpty && ys.isEmpty
  | xs, ys, z :: zs =>
    (match xs with
     | x :: xs' => x == z && merges xs' ys zs
     | [] => false)
    || (match ys with
        | y :: ys' => y == z && merges xs ys' zs
        | [] => false)

/-- The main thread only ever emits DDATA publishes. -/
def mainEmits (ys : List Ev) : Bool := ys.all (· == Ev.ddata)

/-- The `while not connected` gate (source lines 239-240): the main
thread publishes nothing before the network thread has set
`connected`. -/
def connGated (t : List Ev) : Bool :=
  !((t.takeWhile (fun e => !(e == Ev.setConnected))).contains Ev.ddata)

/-- A realizable system trace of the connection phase: an interleaving
of the network thread with some sequence of main-loop DDATA publishes,
respecting the `connected` gate. -/
def validTrace (ys t : List Ev) : Bool :=
  mainEmits ys && merges netThread ys t && connGated t

/-- `e` occurs in `t` strictly before the first occurrence of `e2`. -/
def occursBefore (t : List Ev) (e e2 : Ev) : Bool :=
  (t.takeWhile (fun x => !(x == e2))).contains e

/-! ### Decode side

Decoding is the protobuf parse (`ParseFromString`, an external
collaborator modelled as the identity on `Payload`) followed by
reading each metric's name, declared type and populated wire value
field, as `on_dcmd` does for the fields it needs. -/

/-- The value a decoder recovers from a wire metric: the content of
its populated value field, translated back to a Python value
(`int_value`/`long_value` → int, `float_value`/`double_value` → float,
and so on); `none` when no value field is populated. -/
def wireValueOf (m : WireMetric) : Option PyValue :=
  match m.intValue with
  | some n => some (.int n)
  | none =>
    match m.longValue with
    | some n => some (.int n)
    | none =>
      match m.floatValue with
      | some q => some (.float q)
      | none =>
        match m.doubleValue with
        | some q => some (.float q)
        | none =>
          match m.booleanValue with
          | some b => some (.bool b)
          | none =>
            match m.stringValue with
            | some s => some (.str s)
            | none => none

/-- A decoded metric: name, declared type and recovered value. -/
def decodeEntry (m : WireMetric) : String × Nat × Option PyValue :=
  (m.name, m.datatype, wireValueOf m)

/-- A metric dict entry as a decoder should see it back. -/
def liftEntry (e : String × MetricEntry) : String × Nat × Option PyValue :=
  (e.2.1, e.2.2.1, some e.2.2.2)

/-- The spec's data-model invariant (spec §3) that a metric `value`'s
representation matches its declared `type`'s wire field: integer kinds
carry ints (`DateTime` an int64 of milliseconds), `Float`/`Double`
carry floats, `Boolean` a bool, `String` a string. -/
def typeMatches (d : Nat) (v : PyValue) : Bool :=
  match v with
  | .int _ =>
    d ∈ [INT8, INT16, INT32, INT64, UINT8, UINT16, UINT32, UINT64, DATETIME]
  | .float _ => d ∈ [FLOAT, DOUBLE]
  | .bool _ => d = BOOLEAN
  | .str _ => d = STRING

/-- A valid metric dict: every entry's value matches its type. -/
def validMetrics (metrics : Snapshot) : Bool :=
  metrics.all (fun e => typeMatches e.2.2.1 e.2.2.2)

/-- The six wire value fields of a metric. -/
inductive Field where
  | intF
  | longF
  | floatF
  | doubleF
  | boolF
  | stringF
deriving DecidableEq, Repr

/-- The wire value fields of `m` that are populated, in field order. -/
def populatedFields (m : WireMetric) : List Field :=
  (if m.intValue.isSome then [Field.intF] else [])
  ++ (if m.longValue.isSome then [Field.longF] else [])
  ++ (if m.floatValue.isSome then [Field.floatF] else [])
  ++ (if m.doubleValue.isSome then [Field.doubleF] else [])
  ++ (if m.booleanValue.isSome then [Field.boolF] else [])
  ++ (if m.stringValue.isSome then [Field.stringF] else [])

/-- The wire field the encoder's `if/elif` chain selects for each
datatype; `none` for `DATETIME` and unknown codes, for which the chain
has no branch. -/
def fieldFor (d : Nat) : Option Field :=
  if d ∈ [INT8, INT16, INT32, UINT8, UINT16, UINT32] then some .intF
  else if d ∈ [INT64, UINT64] then some .longF
  else if d = FLOAT then some .floatF
  else if d = DOUBLE then some .doubleF
  else if d = STRING then some .stringF
  else if d = BOOLEAN then some .boolF
  else none

/-- The keys of a metric dict. -/
def keysOf (s : Snapshot) : List String := s.map Prod.fst

/-! ### Helper lemmas -/

theorem lookup_cons_self {a : String} {b : MetricEntry}
    {rest : Snapshot} : ((a, b) :: rest).lookup a = some b := by
  simp [List.lookup_cons]

theorem lookup_cons_ne {k a : String} {b : MetricEntry} {rest : Snapshot}
    (h : k ≠ a) : ((a, b) :: rest).lookup k = rest.lookup k := by
  have hb : (k == a) = false := beq_eq_false_iff_ne.mpr h
  simp [List.lookup_cons, hb]

theorem lookup_eq_none_of_not_mem {s : Snapshot} {k : String}
    (h : k ∉ keysOf s) : s.lookup k = none := by
  induction s with
  | nil => rfl
  | cons e rest ih =>
    obtain ⟨a, b⟩ := e
    simp only [keysOf, List.map_cons, List.mem_cons, not_or] at h
    rw [lookup_cons_ne h.1]
    exact ih (by simpa [keysOf] using h.2)

theorem keysOf_delta_subset (A B : Snapshot) :
    keysOf (delta A B) ⊆ keysOf B :=
  List.map_subset Prod.fst (List.filter_sublist B).subset

theorem lookup_of_mem_nodup {s : Snapshot} {k : String} {e : MetricEntry}
    (hn : (keysOf s).Nodup) (h : (k, e) ∈ s) : s.lookup k = some e := by
  induction s with
  | nil => simp at h
  | cons hd rest ih =>
    obtain ⟨a, b⟩ := hd
    simp only [keysOf, List.map_cons, List.nodup_cons] at hn
    rcases List.mem_cons.mp h with heq | hmem
    · obtain ⟨rfl, rfl⟩ := Prod.mk.injEq .. ▸ heq
      exact lookup_cons_self
    · have hka : k ≠ a := by
        rintro rfl
        exact hn.1 (List.mem_map.mpr ⟨(k, e), hmem, rfl⟩)
      rw [lookup_cons_ne hka]
      exact ih (by simpa [keysOf] using hn.2) hmem

theorem delta_lookup (A B : Snapshot) (hn : (keysOf B).Nodup) (k : String) :
    (delta A B).lookup k
      = (B.lookup k).bind (fun e =>
          if valAt A k = some e.2.2 then none else some e) := by
  induction B with
  | nil => rfl
  | cons hd rest ih =>
    obtain ⟨a, e⟩ := hd
    simp only [keysOf, List.map_cons, List.nodup_cons] at hn
    have ihr := ih (by simpa [keysOf] using hn.2)
    by_cases hk : k = a
    · subst hk
      by_cases hp : valAt A k = some e.2.2
      · have hδ : delta A ((k, e) :: rest) = delta A rest := by
          simp [delta, List.filter_cons, hp]
        have hnm : k ∉ keysOf (delta A rest) :=
          fun hmem => hn.1 (by
            simpa [keysOf] using keysOf_delta_subset A rest hmem)
        rw [hδ, lookup_eq_none_of_not_mem hnm, lookup_cons_self]
        simp [hp]
      · have hδ : delta A ((k, e) :: rest) = (k, e) :: delta A rest := by
          simp [delta, List.filter_cons, hp]
        rw [hδ, lookup_cons_self, lookup_cons_self]
        simp [hp]
    · have hδ : delta A ((a, e) :: rest)
          = if valAt A a = some e.2.2 then delta A rest
            else (a, e) :: delta A rest := by
        by_cases hp : valAt A a = some e.2.2 <;>
          simp [delta, List.filter_cons, hp]
      rw [hδ]
      by_cases hp : valAt A a = some e.2.2
      · rw [if_pos hp, lookup_cons_ne hk]
        exact ihr
      · rw [if_neg hp, lookup_cons_ne hk, lookup_cons_ne hk]
        exact ihr

theorem delta_self (A : Snapshot) (hn : (keysOf A).Nodup) :
    delta A A = [] := by
  apply List.filter_eq_nil_iff.mpr
  intro kv hmem
  have hl : A.lookup kv.1 = some kv.2 :=
    lookup_of_mem_nodup hn (by simpa using hmem)
  simp [valAt, hl]

theorem delta_nil_left (S : Snapshot) : delta [] S = S := by
  apply List.filter_eq_self.mpr
  intro kv _
  simp [valAt]

theorem encodeMetric_valid (n : String) (d : Nat) (v : PyValue) (ts : Int)
    (h : typeMatches d v = true) :
    ∃ m, encodeMetric n d v ts = some m ∧ m.name = n ∧ m.datatype = d ∧
      m.timestamp = ts ∧ populatedFields m = (fieldFor d).toList ∧
      wireValueOf m = if d = 13 then none else some v := by
  cases v <;> simp [typeMatches, INT8, INT16, INT32, INT64, UINT8, UINT16,
    UINT32, UINT64, FLOAT, DOUBLE, BOOLEAN, STRING, DATETIME] at h
  case int k =>
    rcases h with rfl | rfl | rfl | rfl | rfl | rfl | rfl | rfl | rfl <;>
      exact ⟨_, rfl, rfl, rfl, rfl, rfl, rfl⟩
  case float q =>
    rcases h with rfl | rfl <;> exact ⟨_, rfl, rfl, rfl, rfl, rfl, rfl⟩
  case bool b =>
    subst h; exact ⟨_, rfl, rfl, rfl, rfl, rfl, rfl⟩
  case str s =>
    subst h; exact ⟨_, rfl, rfl, rfl, rfl, rfl, rfl⟩

theorem encodeMetrics_valid :
    ∀ (metrics : Snapshot) (ts : Int),
      validMetrics metrics = true →
      (∀ e ∈ metrics, e.2.2.1 ≠ DATETIME) →
      ∃ ms, encodeMetrics metrics ts = some ms ∧
        ms.map decodeEntry = metrics.map liftEntry := by
  intro metrics ts
  induction metrics with
  | nil => intro _ _; exact ⟨[], rfl, rfl⟩
  | cons e rest ih =>
    intro hv hdt
    obtain ⟨k, n, d, v⟩ := e
    have h1 : typeMatches d v = true := by
      have := List.all_eq_true.mp hv (k, n, d, v) (List.mem_cons_self ..)
      simpa using this
    have h13 : d ≠ 13 := by
      have := hdt (k, n, d, v) (List.mem_cons_self ..)
      simpa [DATETIME] using this
    have hvrest : validMetrics rest = true := by
      apply List.all_eq_true.mpr
      intro x hx
      exact List.all_eq_true.mp hv x (List.mem_cons_of_mem _ hx)
    have hdtrest : ∀ x ∈ rest, x.2.2.1 ≠ DATETIME :=
      fun x hx => hdt x (List.mem_cons_of_mem _ hx)
    obtain ⟨m, hm, hname, hdty, hts, _, hwv⟩ := encodeMetric_valid n d v ts h1
    obtain ⟨ms, hms, hmap⟩ := ih hvrest hdtrest
    refine ⟨m :: ms, ?_, ?_⟩
    · simp [encodeMetrics, hm, hms]
    · simp only [List.map_cons, hmap, liftEntry]
      congr 1
      rw [decodeEntry, hname, hdty, hwv, if_neg h13]

theorem foldl_dcmd_names_eq :
    ∀ (ms ms' : List WireMetric),
      List.Forall₂ (fun m m' : WireMetric => m.name = m'.name) ms ms' →
      ∀ f : FlagFile, ms.foldl dcmdStep f = ms'.foldl dcmdStep f := by
  intro ms
  induction ms with
  | nil =>
    intro ms' h f
    cases h
    rfl
  | cons m rest ih =>
    intro ms' h f
    cases h with
    | cons hname htail =>
      rename_i m' rest'
      simp only [List.foldl_cons]
      have hstep : dcmdStep f m = dcmdStep f m' := by
        simp [dcmdStep, hname]
      rw [hstep]
      exact ih rest' htail _

theorem foldl_dcmd_no_cmd :
    ∀ (ms : List WireMetric) (f : FlagFile),
      (∀ m ∈ ms, m.name ≠ "boolean_command") → ms.foldl dcmdStep f = f := by
  intro ms
  induction ms with
  | nil => intro f _; rfl
  | cons m rest ih =>
    intro f h
    have hm : m.name ≠ "boolean_command" := h m (List.mem_cons_self ..)
    simp only [List.foldl_cons, dcmdStep, beq_eq_false_iff_ne.mpr hm,
      Bool.false_eq_true, if_false]
    exact ih f (fun x hx => h x (List.mem_cons_of_mem _ hx))

theorem foldl_dcmd_single :
    ∀ (ms : List WireMetric) (f : FlagFile),
      (ms.filter (fun m => m.name == "boolean_command")).length = 1 →
      ms.foldl dcmdStep f = some (if flagTrue f then "FALSE" else "TRUE") := by
  intro ms
  induction ms with
  | nil => intro f h; simp at h
  | cons m rest ih =>
    intro f h
    by_cases hm : m.name = "boolean_command"
    · have hm' : (m.name == "boolean_command") = true := by simpa using hm
      have hrest : (rest.filter
          (fun m => m.name == "boolean_command")).length = 0 := by
        simp only [List.filter_cons, hm', if_pos, List.length_cons] at h
        omega
      have hall : ∀ x ∈ rest, x.name ≠ "boolean_command" := by
        intro x hx hxn
        have hxf : x ∈ rest.filter (fun m => m.name == "boolean_command") :=
          List.mem_filter.mpr ⟨hx, by simpa using hxn⟩
        rw [List.length_eq_zero.mp hrest] at hxf
        simp at hxf
      simp only [List.foldl_cons, dcmdStep, hm', if_pos]
      rw [foldl_dcmd_no_cmd rest _ hall]
      cases hf : flagTrue f <;> simp [hf]
    · have hm' : (m.name == "boolean_command") = false := by simpa using hm
      have hrest : (rest.filter
          (fun m => m.name == "boolean_command")).length = 1 := by
        simpa [List.filter_cons, hm'] using h
      simp only [List.foldl_cons, dcmdStep, hm']
      simp only [Bool.false_eq_true, if_false]
      exact ih f hrest

end Sparkplug

namespace Sparkplug

/-! ### Concrete fixtures -/

/-- The initial global state (source lines 68-71): not connected,
`seq = 0`, `first = True`, empty `previous_metrics`. -/
def st0 : GState :=
  { connected := false, seq := 0, first := true, previousMetrics := [] }

/-- A session state as found at a reconnect: five payloads already
sent (`seq = 5`), stale retained metrics from before the
disconnect. -/
def stRe : GState :=
  { connected := false, seq := 5, first := false,
    previousMetrics := [("cpu_percent", ("cpu_percent", DOUBLE, .float 42))] }

/-- A pre-disconnect steady state with stale retained metrics. -/
def stStale : GState :=
  { connected := true, seq := 9, first := false,
    previousMetrics := [("cpu_percent", ("cpu_percent", DOUBLE, .float 7))] }

/-- Snapshot with one Double metric at 42.0 (spec §8 scenario). -/
def snapA : Snapshot := [("cpu_percent", ("cpu_percent", DOUBLE, .float 42))]

/-- Snapshot with the same metric changed to 55.0 (spec §8 scenario). -/
def snapB : Snapshot := [("cpu_percent", ("cpu_percent", DOUBLE, .float 55))]

/-- A valid metric dict containing a DateTime-typed metric. -/
def MDT : Snapshot := [("t", ("t", DATETIME, .int 1234))]

/-- A valid metric dict covering the non-DateTime wire types. -/
def M1 : Snapshot :=
  [("cpu_percent", ("cpu_percent", DOUBLE, .float 42)),
   ("mem_used_mb", ("mem_used_mb", INT64, .int 100)),
   ("online", ("online", BOOLEAN, .bool true)),
   ("node", ("node", STRING, .str "n")),
   ("cpu_temp", ("cpu_temp", FLOAT, .float 1)),
   ("bytes_sent", ("bytes_sent", UINT64, .int 5)),
   ("x", ("x", UINT8, .int 3))]

/-- The interleaving in which the main loop's first DDATA publish
slips in between `connected = True` and the NBIRTH publish. -/
def traceRace : List Ev :=
  [.setConnected, .ddata, .nbirth, .dbirth, .settleDone]

/-- An inbound DCMD payload with a single `boolean_command` metric
carrying the boolean `b`. -/
def cmdPayload (b : Bool) : Payload :=
  { timestamp := 0, seq := 0, uuid := none,
    metrics := [{ name := "boolean_command", metricAlias := 255,
                  timestamp := 0, datatype := BOOLEAN,
                  booleanValue := some b }] }

/-! ### Claims -/

/-- C1: the claim says every (re)connection resets the sequence
counter to 0 before the births, so NBIRTH carries 0 and DBIRTH
carries 1.  The code never resets `seq` (`on_connect` declares
`global ... seq` but never assigns it): reconnecting with `seq = 5`
produces an NBIRTH stamped 5 and a DBIRTH stamped 6, leaving the
counter at 7. -/
theorem on_connect_keeps_stale_seq :
    (on_connect stRe 0 "n" "d" 0 "u1" "u2").2.1.map Payload.seq = some 5
    ∧ (on_connect stRe 0 "n" "d" 0 "u1" "u2").2.2.map Payload.seq = some 6
    ∧ ((on_connect stRe 0 "n" "d" 0 "u1" "u2").1).seq = 7 := by
  decide

/-- C2: the claim says no data message is ever sent before both birth
messages complete and the settling delay elapses.  The main loop is
gated only on the `connected` flag, which `on_connect` sets before
publishing either birth: the trace `traceRace`, in which a DDATA
publish precedes NBIRTH, DBIRTH and the settling sleep, is a
realizable interleaving of the two threads. -/
theorem ddata_race_before_birth :
    validTrace [Ev.ddata] traceRace = true
    ∧ occursBefore traceRace Ev.ddata Ev.dbirth = true
    ∧ occursBefore traceRace Ev.ddata Ev.settleDone = true := by
  decide

/-- C3: `delta A B` contains exactly the keys of `B` that are absent
from `A` or whose stored value differs, carrying `B`'s entries;
`delta A A` is empty; `delta {} S = S` for nonempty `S`. -/
theorem delta_exact_diff :
    (∀ A B : Snapshot, (keysOf B).Nodup → ∀ k : String,
        (delta A B).lookup k
          = (B.lookup k).bind (fun e =>
              if valAt A k = some e.2.2 then none else some e))
    ∧ (∀ A : Snapshot, (keysOf A).Nodup → delta A A = [])
    ∧ (∀ S : Snapshot, S ≠ [] → delta [] S = S) :=
  ⟨delta_lookup, delta_self, fun S _ => delta_nil_left S⟩

theorem delta_exact_diff_witness :
    (delta snapA snapB).lookup "cpu_percent"
        = (snapB.lookup "cpu_percent").bind (fun e =>
            if valAt snapA "cpu_percent" = some e.2.2 then none else some e)
    ∧ delta snapA snapA = [] ∧ delta [] snapA = snapA :=
  ⟨delta_exact_diff.1 snapA snapB (by decide) "cpu_percent",
   delta_exact_diff.2.1 snapA (by decide),
   delta_exact_diff.2.2 snapA (by decide)⟩

/-- C4: the claim's round-trip law fails on a valid mapping with a
DateTime-typed metric: the encoder populates no wire value field for
`DATETIME`, so the decoded sequence cannot equal the input. -/
theorem roundtrip_fails_on_datetime :
    validMetrics MDT = true
    ∧ (build_payload st0 MDT false 0 "").2.map
        (fun pl => pl.metrics.map decodeEntry) ≠ some (MDT.map liftEntry) := by
  decide

/-- C4 (amended): for every valid metric mapping containing no
DateTime-typed metric, encoding without a session identifier and
decoding yields exactly the input metrics, names, declared types and
values, in insertion order, with no uuid attached and the given
sequence value stamped. -/
theorem payload_round_trip :
    ∀ (st : GState) (M : Snapshot) (now : Int) (u : String),
      validMetrics M = true → (∀ e ∈ M, e.2.2.1 ≠ DATETIME) →
      ∃ pl, (build_payload st M false now u).2 = some pl ∧
        pl.metrics.map decodeEntry = M.map liftEntry ∧
        pl.uuid = none ∧ pl.seq = st.seq ∧ pl.timestamp = now := by
  intro st M now u hv hdt
  obtain ⟨ms, hms, hmap⟩ := encodeMetrics_valid M now hv hdt
  refine ⟨{ timestamp := now, seq := st.seq, uuid := none, metrics := ms },
    ?_, hmap, rfl, rfl, rfl⟩
  simp [build_payload, hms]

theorem payload_round_trip_witness :
    ∃ pl, (build_payload st0 M1 false 0 "").2 = some pl ∧
      pl.metrics.map decodeEntry = M1.map liftEntry ∧
      pl.uuid = none ∧ pl.seq = st0.seq ∧ pl.timestamp = 0 :=
  payload_round_trip st0 M1 0 "" (by decide) (by decide)

/-- C5: the claim says exactly one wire value field is populated for
every type of the enumeration, including DateTime.  For a valid
DateTime metric the encoder's `if/elif` chain has no branch and
populates no value field at all. -/
theorem datetime_populates_no_field :
    typeMatches DATETIME (PyValue.int 5) = true
    ∧ (encodeMetric "t" DATETIME (PyValue.int 5) 0).map
        (fun m => (populatedFields m).length) ≠ some 1 := by
  decide

/-- C5 (amended): for every valid metric whose declared type is not
DateTime, exactly one wire value field is populated, and which one is
a function of the declared type alone; a valid DateTime metric
populates none. -/
theorem wire_field_selection :
    (∀ (n : String) (d : Nat) (v : PyValue) (ts : Int),
        typeMatches d v = true → d ≠ DATETIME →
        ∃ m f, encodeMetric n d v ts = some m ∧ fieldFor d = some f ∧
          populatedFields m = [f])
    ∧ (∀ (n : String) (v : PyValue) (ts : Int),
        typeMatches DATETIME v = true →
        ∃ m, encodeMetric n DATETIME v ts = some m ∧
          populatedFields m = []) := by
  constructor
  · intro n d v ts h h13
    obtain ⟨m, hm, _, _, _, hpf, _⟩ := encodeMetric_valid n d v ts h
    have hf : ∃ f, fieldFor d = some f := by
      cases v <;> simp [typeMatches, INT8, INT16, INT32, INT64, UINT8,
        UINT16, UINT32, UINT64, FLOAT, DOUBLE, BOOLEAN, STRING, DATETIME]
        at h
      case int k =>
        rcases h with rfl | rfl | rfl | rfl | rfl | rfl | rfl | rfl | rfl
        all_goals first
          | exact ⟨_, rfl⟩
          | exact absurd rfl h13
      case float q =>
        rcases h with rfl | rfl <;> exact ⟨_, rfl⟩
      case bool b => subst h; exact ⟨_, rfl⟩
      case str s => subst h; exact ⟨_, rfl⟩
    obtain ⟨f, hff⟩ := hf
    exact ⟨m, f, hm, hff, by rw [hpf, hff]; rfl⟩
  · intro n v ts h
    obtain ⟨m, hm, _, _, _, hpf, _⟩ := encodeMetric_valid n DATETIME v ts h
    exact ⟨m, hm, by rw [hpf]; rfl⟩

theorem wire_field_selection_witness :
    (∃ m f, encodeMetric "cpu_percent" DOUBLE (PyValue.float 42) 0 = some m
        ∧ fieldFor DOUBLE = some f ∧ populatedFields m = [f])
    ∧ (∃ m, encodeMetric "t" DATETIME (PyValue.int 5) 0 = some m ∧
        populatedFields m = []) :=
  ⟨wire_field_selection.1 "cpu_percent" DOUBLE (PyValue.float 42) 0
     (by decide) (by decide),
   wire_field_selection.2 "t" (PyValue.int 5) 0 (by decide)⟩

/-- C6: the claim says the encoder has no side effect on session state
and in particular never increments the sequence counter.  In the code
`build_payload` itself increments the global `seq`: encoding changes
the state. -/
theorem codec_mutates_seq :
    (build_payload st0 [] false 0 "").1 ≠ st0 := by
  decide

/-- C6 (amended): the encoder's only session-state effect is
incrementing the sequence counter by one modulo 256 — every other
state component is left unchanged — and the payload is stamped with
the pre-increment value. -/
theorem codec_effect_only_seq :
    ∀ (st : GState) (M : Snapshot) (b : Bool) (now : Int) (u : String),
      (build_payload st M b now u).1 = { st with seq := (st.seq + 1) % 256 }
      ∧ ∀ pl, (build_payload st M b now u).2 = some pl → pl.seq = st.seq := by
  intro st M b now u
  refine ⟨rfl, ?_⟩
  intro pl h
  simp only [build_payload] at h
  cases hE : encodeMetrics M now with
  | none => rw [hE] at h; simp at h
  | some ms =>
    rw [hE] at h
    simp only [Option.map_some'] at h
    obtain rfl := Option.some.injEq .. ▸ h
    cases h
    rfl

theorem codec_effect_only_seq_witness :
    ({ timestamp := 0, seq := 0, uuid := none, metrics := [] } : Payload).seq
      = st0.seq :=
  (codec_effect_only_seq st0 [] false 0 "").2
    { timestamp := 0, seq := 0, uuid := none, metrics := [] } rfl

/-- C7: after `on_connect` (any connection or reconnection, stale
state included), the first tick with a nonempty snapshot sends the
full snapshot — never a delta against pre-disconnect state — and
clears the first-tick flag, after which a tick with a nonempty delta
sends exactly that delta. -/
theorem first_tick_sends_full_snapshot :
    ∀ (st₀ : GState) (nodeId deviceId : String) (now : Int) (u1 u2 : String)
      (snap : Snapshot), snap ≠ [] →
      (selectMetrics (on_connect st₀ 0 nodeId deviceId now u1 u2).1 snap
        = ({ (on_connect st₀ 0 nodeId deviceId now u1 u2).1 with
              previousMetrics := snap, first := false }, some snap))
      ∧ (∀ snap' : Snapshot, delta snap snap' ≠ [] →
          selectMetrics
            { (on_connect st₀ 0 nodeId deviceId now u1 u2).1 with
              previousMetrics := snap, first := false } snap'
            = ({ (on_connect st₀ 0 nodeId deviceId now u1 u2).1 with
                  previousMetrics := snap', first := false },
               some (delta snap snap'))) := by
  intro st₀ nodeId deviceId now u1 u2 snap hne
  have hst : (on_connect st₀ 0 nodeId deviceId now u1 u2).1
      = { connected := true, seq := ((st₀.seq + 1) % 256 + 1) % 256,
          first := true, previousMetrics := [] } := rfl
  constructor
  · rw [hst]
    simp [selectMetrics, read_metrics, hne]
  · intro snap' hd
    rw [hst]
    simp [selectMetrics, read_metrics, hne, hd]

theorem first_tick_sends_full_snapshot_witness :
    selectMetrics (on_connect stStale 0 "n" "d" 0 "a" "b").1 snapA
      = ({ (on_connect stStale 0 "n" "d" 0 "a" "b").1 with
            previousMetrics := snapA, first := false }, some snapA)
    ∧ selectMetrics
        { (on_connect stStale 0 "n" "d" 0 "a" "b").1 with
          previousMetrics := snapA, first := false } snapB
        = ({ (on_connect stStale 0 "n" "d" 0 "a" "b").1 with
              previousMetrics := snapB, first := false },
           some (delta snapA snapB)) :=
  ⟨(first_tick_sends_full_snapshot stStale "n" "d" 0 "a" "b" snapA
      (by decide)).1,
   (first_tick_sends_full_snapshot stStale "n" "d" 0 "a" "b" snapA
      (by decide)).2 snapB (by decide)⟩

/-- C8: on a steady tick (retained snapshot nonempty) whose delta is
empty, no data message is published at all — the loop `continue`s
before building a payload. -/
theorem empty_delta_no_message :
    ∀ (st : GState) (snap : Snapshot) (now : Int),
      st.previousMetrics ≠ [] → delta st.previousMetrics snap = [] →
      loopIter st snap now = ({ st with previousMetrics := snap }, none) := by
  intro st snap now hne hd
  simp [loopIter, selectMetrics, read_metrics, hne, hd]

theorem empty_delta_no_message_witness :
    loopIter { connected := true, seq := 2, first := false,
               previousMetrics := snapA } snapA 0
      = ({ connected := true, seq := 2, first := false,
           previousMetrics := snapA }, none) :=
  empty_delta_no_message
    { connected := true, seq := 2, first := false, previousMetrics := snapA }
    snapA 0 (by decide) (by decide)

/-- C9: every main-loop iteration replaces the retained snapshot with
the freshly queried one, no matter whether the delta was empty or a
message was sent. -/
theorem retained_snapshot_always_updated :
    ∀ (st : GState) (snap : Snapshot) (now : Int),
      ((loopIter st snap now).1).previousMetrics = snap := by
  intro st snap now
  have hsel : ((selectMetrics st snap).1).previousMetrics = snap := by
    simp only [selectMetrics, read_metrics]
    by_cases h1 : st.previousMetrics = [] <;> simp [h1] <;> split <;>
      (try split) <;> rfl
  simp only [loopIter]
  cases hs : selectMetrics st snap with
  | mk st₁ o =>
    have h1 : st₁.previousMetrics = snap := by
      have := hsel; rw [hs] at this; exact this
    cases o with
    | none => exact h1
    | some ms => simp [build_payload, h1]

/-- C10: the Command Flag value `on_dcmd` leaves behind is independent
of the boolean carried by the `boolean_command` metric — payloads with
pointwise equal metric names produce the same flag — and for a payload
with exactly one `boolean_command` metric the stored flag is the
inversion of the previously stored one. -/
theorem command_value_ignored :
    (∀ (p p' : Payload) (f : FlagFile),
        List.Forall₂ (fun m m' : WireMetric => m.name = m'.name)
          p.metrics p'.metrics →
        on_dcmd p f = on_dcmd p' f)
    ∧ (∀ (p : Payload) (f : FlagFile),
        (p.metrics.filter (fun m => m.name == "boolean_command")).length = 1 →
        on_dcmd p f = some (if flagTrue f then "FALSE" else "TRUE")) := by
  constructor
  · intro p p' f h
    exact foldl_dcmd_names_eq p.metrics p'.metrics h f
  · intro p f h
    exact foldl_dcmd_single p.metrics f h

theorem command_value_ignored_witness :
    on_dcmd (cmdPayload true) none = on_dcmd (cmdPayload false) none
    ∧ on_dcmd (cmdPayload true) none = some "TRUE" :=
  ⟨command_value_ignored.1 (cmdPayload true) (cmdPayload false) none
     (List.Forall₂.cons rfl List.Forall₂.nil),
   command_value_ignored.2 (cmdPayload true) none (by decide)⟩

end Sparkplug
